import Mathlib

/-!
Shallow embedding of `src/cbench/commands.py` (cassandra-bench orchestration
commands) and proofs of the specification claims about it.

The module-level mutable state (`cbench.state`: `CLUSTER_INSTANCES`,
`YCSB_INSTANCES`, `SEED_IP`, `RUN_NAME`, `RUN_DESCRIPTION`, `WORKLOAD`) is
embedded as an explicit record `OrchState` threaded through the operations.
Python falsy tests (`if not state.SEED_IP`) are embedded as equality with the
empty string, which stands for both `None` and `""`.

Remote effects (EC2 API calls, remote command execution, file downloads) are
embedded as an environment record `Env` supplying their observable results,
and each operation returns the list of effect events it issues, so that
claims about which remote commands run (and in which cases) are statable.
Exceptions are embedded as `Except`.
-/

/-- An EC2 instance as seen through boto3 (`ec2.Instance(id)`): identifier and
addresses. -/
structure Instance where
  id : String
  private_ip_address : String
  public_ip_address : String
deriving DecidableEq, Repr

/-- The module-level mutable state of `cbench.state`, embedded as a record.
Empty string stands for an unset (`None` or empty) value. -/
structure OrchState where
  CLUSTER_INSTANCES : List String
  YCSB_INSTANCES : List String
  SEED_IP : String
  RUN_NAME : String
  RUN_DESCRIPTION : String
  WORKLOAD : String
deriving DecidableEq, Repr

/-- The initial state of a fresh process: every field unset. -/
def initialState : OrchState :=
  { CLUSTER_INSTANCES := []
    YCSB_INSTANCES := []
    SEED_IP := ""
    RUN_NAME := ""
    RUN_DESCRIPTION := ""
    WORKLOAD := "" }

/-- Environment: the observable results of the external collaborators
(EC2 control plane, remote executor) that `commands.py` calls into. -/
structure Env where
  /-- `util.create_instance(name, ...)`: the instance the cloud returns for a
  creation request with the given name. -/
  createInstance : String → Instance
  /-- `ec2.Instance(id).private_ip_address`. -/
  privateIp : String → String
  /-- `util.is_cassandra_running(instance_id)`. -/
  isRunning : String → Bool
  /-- Whether the substring `"ycsb"` occurs in the output of
  `cqlsh -e "DESCRIBE KEYSPACES"` on the seed instance. -/
  keyspaceExists : Bool
  /-- `datetime.now().strftime(...)`: the timestamp-derived default run name. -/
  timestamp : String
  /-- Instance ids returned by `describe_instances` filtered by tag value
  `cassandra-*` and state pending/running, in iteration order. -/
  clusterInventory : List String
  /-- Instance ids returned by `describe_instances` filtered by tag value
  `ycsb-*` and state pending/running, in iteration order. -/
  ycsbInventory : List String
  /-- Whether downloading `~/ycsb/ycsb.log` from the given generator instance
  raises. -/
  ycsbDownloadFails : String → Bool
  /-- Whether `util.connect(instance)` for the given cluster instance raises
  (connect is outside the `try` in the cluster loop of `gather_results`). -/
  clusterConnectFails : String → Bool
  /-- Whether fetching the service log (`docker logs` + download, the body of
  the `try` in `gather_results`) from the given cluster instance raises. -/
  clusterFetchFails : String → Bool

/-! ## create_cluster (commands.py lines 26-36) -/

/-- Effect events issued by cluster-lifecycle operations. -/
inductive ClusterEv where
  /-- `util.run_cassandra(host)`: install/start the store joining the seed. -/
  | runCassandra (host : String)
  /-- `util.docker_exec(adminHost, ["nodetool", cmd])`. -/
  | nodetool (adminHost : String) (cmd : String)
  /-- A conflict was detected: `is_cassandra_running` returned true. -/
  | conflict (host : String)
deriving DecidableEq, Repr

/-- `create_cluster(hosts)`: if no seed ip is set yet, record the private
address of `hosts[0]` as the seed (an empty `hosts` list raises IndexError
there); then run cassandra on every listed host. -/
def create_cluster (env : Env) (hosts : List String) (st : OrchState) :
    Except String (OrchState × List ClusterEv) :=
  if st.SEED_IP = "" then
    match hosts with
    | [] => .error "IndexError: list index out of range"
    | h :: _ =>
        .ok ({ st with SEED_IP := env.privateIp h }, hosts.map ClusterEv.runCassandra)
  else
    .ok (st, hosts.map ClusterEv.runCassandra)

/-! ## create_instances (commands.py lines 39-63) -/

/-- `create_instances(num, group, setup, type)`.

The per-instance name is `"{setup}-{len(group)+i}"`; when `group` is `None`
(the default), `len(group)` raises a `TypeError` on the first loop iteration,
before `util.create_instance` is ever called.  On success the ids of the
created instances are appended to `group` when it is a list.  Returns the
created instances, the updated group list, and the names actually submitted
to instance creation (the creation effects that took place). -/
def create_instances (env : Env) (num : Nat) (group : Option (List String))
    (setup : String) : Except String (List Instance × Option (List String)) × List String :=
  match group with
  | none =>
      if num = 0 then (.ok ([], none), [])
      else (.error "TypeError: object of type NoneType has no len", [])
  | some g =>
      let names := (List.range num).map (fun i => setup ++ "-" ++ toString (g.length + i))
      let instances := names.map env.createInstance
      (.ok (instances, some (g ++ instances.map (·.id))), names)

/-! ## scale_cluster (commands.py lines 80-96) -/

/-- The `for instance_id in instances` loop of `scale_cluster`: for each
candidate, if a cassandra process is already detected running there the
exception raised aborts the loop (and the whole operation); otherwise
cassandra is started on the candidate and iteration continues. -/
def scale_loop (env : Env) : List String → List ClusterEv × Except String Unit
  | [] => ([], .ok ())
  | h :: rest =>
      if env.isRunning h then
        ([ClusterEv.conflict h], .error ("Detected already running instance on " ++ h))
      else
        let r := scale_loop env rest
        (ClusterEv.runCassandra h :: r.1, r.2)

/-- `scale_cluster(instances)`: `nodetool status` through
`CLUSTER_INSTANCES[0]` (IndexError when the cluster list is empty), then the
candidate loop; on success of the loop, `nodetool ring` and `nodetool status`
again.  A raised conflict propagates: the trailing nodetool calls do not run
and no later-listed candidate is attempted. -/
def scale_cluster (env : Env) (st : OrchState) (instances : List String) :
    List ClusterEv × Except String Unit :=
  match st.CLUSTER_INSTANCES with
  | [] => ([], .error "IndexError: list index out of range")
  | admin :: _ =>
      let r := scale_loop env instances
      match r.2 with
      | .error e => (ClusterEv.nodetool admin "status" :: r.1, .error e)
      | .ok () =>
          (ClusterEv.nodetool admin "status" :: r.1
             ++ [ClusterEv.nodetool admin "ring", ClusterEv.nodetool admin "status"],
           .ok ())

/-! ## load_state (commands.py lines 285-306) -/

/-- The merge loop of `load_state`: append each discovered id that is not
already in the known list (membership is checked against the list as it
grows, so duplicates inside the inventory itself are also skipped). -/
def mergeNew (known : List String) : List String → List String
  | [] => known
  | h :: rest =>
      if h ∈ known then mergeNew known rest
      else mergeNew (known ++ [h]) rest

/-- `load_state()`: merge the `cassandra-*`-tagged pending/running inventory
into `CLUSTER_INSTANCES`; if the resulting cluster list is non-empty, set
`SEED_IP` from the private address of its first element; then merge the
`ycsb-*`-tagged inventory into `YCSB_INSTANCES`. -/
def load_state (env : Env) (st : OrchState) : OrchState :=
  let cluster := mergeNew st.CLUSTER_INSTANCES env.clusterInventory
  let seed :=
    match cluster with
    | [] => st.SEED_IP
    | c :: _ => env.privateIp c
  let ycsb := mergeNew st.YCSB_INSTANCES env.ycsbInventory
  { st with CLUSTER_INSTANCES := cluster, SEED_IP := seed, YCSB_INSTANCES := ycsb }

/-! ## prepare_benchmark (commands.py lines 99-147) -/

/-- The table schema of the `create table usertable (...)` CQL statement in
`prepare_benchmark`, transcribed column for column from the source. -/
structure TableSchema where
  keyColumn : String
  fields : List String
deriving DecidableEq, Repr

/-- The schema text of the CQL statement at lines 124-138: primary-key column
`y_id` and varchar columns `field0` .. `field9`. -/
def usertableSchema : TableSchema :=
  { keyColumn := "y_id"
    fields := ["field0", "field1", "field2", "field3", "field4",
               "field5", "field6", "field7", "field8", "field9"] }

/-- Remote commands issued by the benchmark pipeline. -/
inductive Cmd where
  /-- `cqlsh -e "DESCRIBE KEYSPACES"` on the seed instance. -/
  | describeKeyspaces
  /-- The `create keyspace ycsb WITH REPLICATION = ... ; create table
  usertable (...)` statement, carrying its replication factor and schema. -/
  | createSchema (replicationFactor : Nat) (schema : TableSchema)
  /-- `bin/ycsb load cassandra2-cql ... -P workload -p hosts=...` from the
  first generator instance. -/
  | ycsbLoad (workload : String) (hosts : List String)
  /-- `bin/ycsb run cassandra2-cql -s -threads t -l runName ... > ycsb.log`
  from the first generator instance. -/
  | ycsbRun (workload : String) (threads : Nat) (runName : String) (hosts : List String)
deriving DecidableEq, Repr

/-- Does a command create schema?  Used to state that no schema-creation
command is issued. -/
def Cmd.isCreateSchema : Cmd → Bool
  | .createSchema _ _ => true
  | _ => false

/-- Modelled from the spec: `util.cluster_ips()` (the `util` module is not in
the sources) — "all cluster node addresses", the addresses of every
cluster-role instance, passed to the generator as `hosts=`. -/
def cluster_ips (env : Env) (st : OrchState) : List String :=
  st.CLUSTER_INSTANCES.map env.privateIp

/-- `name if name else datetime.now().strftime(...)` — the run name chosen by
`prepare_benchmark`: the given name when it is set (non-`None`, non-empty),
else the timestamp. -/
def runNameOf (env : Env) (name : Option String) : String :=
  match name with
  | some n => if n = "" then env.timestamp else n
  | none => env.timestamp

/-- `prepare_benchmark(workload, name, description, add_args)`.

Raises a precondition error unless both membership lists are non-empty.  Sets
`RUN_NAME` (the given name, or the timestamp when the name is unset),
`RUN_DESCRIPTION` and `WORKLOAD`.  Probes `DESCRIBE KEYSPACES` through the
seed instance; when `"ycsb"` occurs in the output, `util.Fragile.Break`
exits the `with Fragile(...)` block — modelled from the spec (the `util`
module is not in the sources): the conditional-branch-with-early-exit skips
the schema-creation command and execution continues after the block —
otherwise the keyspace/table creation statement is issued.  Either way the
YCSB load phase then runs from the first generator instance against all
cluster addresses.  Returns the new state and the commands issued. -/
def prepare_benchmark (env : Env) (workload : String) (name : Option String)
    (description : String) (st : OrchState) :
    Except String (OrchState × List Cmd) :=
  if st.YCSB_INSTANCES = [] ∨ st.CLUSTER_INSTANCES = [] then
    .error "Cluster (and YCSB host) not yet initialized properly!"
  else
    let st2 := { st with RUN_NAME := runNameOf env name, RUN_DESCRIPTION := description,
                         WORKLOAD := workload }
    let schemaCmds :=
      if env.keyspaceExists then
        [Cmd.describeKeyspaces]
      else
        [Cmd.describeKeyspaces, Cmd.createSchema 3 usertableSchema]
    .ok (st2, schemaCmds ++ [Cmd.ycsbLoad workload (cluster_ips env st2)])

/-! ## start_benchmark (commands.py lines 150-169) -/

/-- `start_benchmark(threads, add_args)`: raises a precondition error when
`RUN_NAME` or `WORKLOAD` is unset, before any remote connection; otherwise
connects to the first generator instance (IndexError when the generator list
is empty) and dispatches the timed run.  The state is never mutated. -/
def start_benchmark (env : Env) (st : OrchState) (threads : Nat) :
    List Cmd × Except String Unit :=
  if st.RUN_NAME = "" ∨ st.WORKLOAD = "" then
    ([], .error "Benchmark not setup properly! Use prepare_benchmark() first!")
  else
    match st.YCSB_INSTANCES with
    | [] => ([], .error "IndexError: list index out of range")
    | _ :: _ =>
        ([Cmd.ycsbRun st.WORKLOAD threads st.RUN_NAME (cluster_ips env st)], .ok ())

/-! ## gather_results (commands.py lines 182-227) -/

/-- Observable effects of `gather_results`, in program order. -/
inductive GatherEv where
  /-- `remote.download("~/ycsb/ycsb.log", result_dir/ycsb_<i>.log)`. -/
  | ycsbLog (i : Nat)
  /-- Writing `result_dir/cbench.state`. -/
  | stateFile
  /-- Writing `result_dir/cbench.settings`. -/
  | settingsFile
  /-- `copy2` of the general log file into the result directory. -/
  | copyGeneralLog
  /-- `copy2` of the action log file into the result directory. -/
  | copyActionLog
  /-- Download of `result_dir/cassandra_<i>.log` from a cluster instance. -/
  | cassandraLog (i : Nat)
  /-- `log.warning("Could not gather info from ...")` for a cluster instance
  whose service-log fetch raised inside the `try`. -/
  | warning (inst : String)
deriving DecidableEq, Repr

/-- Is the event a generator-log download?  The loop over the generator
instances emits nothing else. -/
def GatherEv.isYcsbLog : GatherEv → Bool
  | .ycsbLog _ => true
  | _ => false

/-- The `for i, instance in enumerate(state.YCSB_INSTANCES)` loop: download
the generator log from each generator instance in turn; a download failure is
not caught and aborts the operation. -/
def ycsbGather (env : Env) : Nat → List String → List GatherEv × Except String Unit
  | _, [] => ([], .ok ())
  | i, inst :: rest =>
      if env.ycsbDownloadFails inst then
        ([], .error ("download failed on " ++ inst))
      else
        let r := ycsbGather env (i + 1) rest
        (GatherEv.ycsbLog i :: r.1, r.2)

/-- The `for i, instance in enumerate(state.CLUSTER_INSTANCES)` loop:
connect to each cluster instance (a connect failure is outside the `try` and
aborts); inside the `try`, fetch and download the service log — a failure
there is caught and logged as a warning, and the loop continues. -/
def clusterGather (env : Env) : Nat → List String → List GatherEv × Except String Unit
  | _, [] => ([], .ok ())
  | i, inst :: rest =>
      if env.clusterConnectFails inst then
        ([], .error ("connect failed on " ++ inst))
      else
        let ev := if env.clusterFetchFails inst then GatherEv.warning inst
                  else GatherEv.cassandraLog i
        let r := clusterGather env (i + 1) rest
        (ev :: r.1, r.2)

/-- `gather_results()`: create the result directory, download every generator
log (failures abort), then write the `cbench.state` and `cbench.settings`
snapshot files, flush and copy the two log files, and finally fetch the
service log from every cluster instance with per-fetch failure tolerance.
Returns the events that took place and the outcome. -/
def gather_results (env : Env) (st : OrchState) : List GatherEv × Except String Unit :=
  let y := ycsbGather env 0 st.YCSB_INSTANCES
  match y.2 with
  | .error e => (y.1, .error e)
  | .ok () =>
      let c := clusterGather env 0 st.CLUSTER_INSTANCES
      (y.1 ++ [GatherEv.stateFile, GatherEv.settingsFile,
               GatherEv.copyGeneralLog, GatherEv.copyActionLog] ++ c.1,
       c.2)

/-! ## Concrete environments and states for witnesses and counterexamples -/

/-- A concrete environment: one instance shape, nothing running, keyspace
absent, no failures.  Variants are built with structure update. -/
def baseEnv : Env :=
  { createInstance := fun _ =>
      { id := "i-0", private_ip_address := "10.0.0.1", public_ip_address := "3.0.0.1" }
    privateIp := fun _ => "10.0.0.1"
    isRunning := fun _ => false
    keyspaceExists := false
    timestamp := "20240101120000"
    clusterInventory := []
    ycsbInventory := []
    ycsbDownloadFails := fun _ => false
    clusterConnectFails := fun _ => false
    clusterFetchFails := fun _ => false }

/-- Environment in which instance `i-b` already runs the store. -/
def envScale : Env := { baseEnv with isRunning := fun s => s == "i-b" }

/-- State with one cluster node acting as administrative access point. -/
def stAdmin : OrchState := { initialState with CLUSTER_INSTANCES := ["i-adm"] }

/-! ## Library lemmas about the merge loop of load_state -/

theorem mem_mergeNew_left {x : String} (known found : List String)
    (h : x ∈ known) : x ∈ mergeNew known found := by
  induction found generalizing known with
  | nil => exact h
  | cons f rest ih =>
      unfold mergeNew
      by_cases hf : f ∈ known
      · simp only [hf, if_true]
        exact ih known h
      · simp only [hf, if_false]
        exact ih (known ++ [f]) (List.mem_append_left _ h)

theorem mem_mergeNew_right {x : String} (known found : List String)
    (h : x ∈ found) : x ∈ mergeNew known found := by
  induction found generalizing known with
  | nil => cases h
  | cons f rest ih =>
      unfold mergeNew
      rcases List.mem_cons.mp h with hx | hx
      · subst hx
        by_cases hf : x ∈ known
        · simp only [hf, if_true]
          exact mem_mergeNew_left known rest hf
        · simp only [hf, if_false]
          exact mem_mergeNew_left (known ++ [x]) rest (List.mem_append_right _ (List.mem_singleton.mpr rfl))
      · by_cases hf : f ∈ known
        · simp only [hf, if_true]
          exact ih known hx
        · simp only [hf, if_false]
          exact ih (known ++ [f]) hx

theorem mergeNew_eq_of_subset (known found : List String)
    (h : ∀ x ∈ found, x ∈ known) : mergeNew known found = known := by
  induction found with
  | nil => rfl
  | cons f rest ih =>
      unfold mergeNew
      have hf : f ∈ known := h f (List.mem_cons_self _ _)
      simp only [hf, if_true]
      exact ih (fun x hx => h x (List.mem_cons_of_mem _ hx))

theorem mergeNew_idem (known found : List String) :
    mergeNew (mergeNew known found) found = mergeNew known found :=
  mergeNew_eq_of_subset _ _ (fun _ hx => mem_mergeNew_right known found hx)

/-- C7: The inventory reconciler (`load_state`) is idempotent on membership:
a second run against the same live inventory leaves `CLUSTER_INSTANCES` and
`YCSB_INSTANCES` exactly unchanged (in particular unchanged in length — no
identifier already present is ever inserted again). -/
theorem load_state_idempotent_membership (env : Env) (st : OrchState) :
    (load_state env (load_state env st)).CLUSTER_INSTANCES
      = (load_state env st).CLUSTER_INSTANCES ∧
    (load_state env (load_state env st)).YCSB_INSTANCES
      = (load_state env st).YCSB_INSTANCES ∧
    (load_state env (load_state env st)).CLUSTER_INSTANCES.length
      = (load_state env st).CLUSTER_INSTANCES.length ∧
    (load_state env (load_state env st)).YCSB_INSTANCES.length
      = (load_state env st).YCSB_INSTANCES.length := by
  have hc : (load_state env (load_state env st)).CLUSTER_INSTANCES
      = (load_state env st).CLUSTER_INSTANCES := by
    simp only [load_state]
    exact mergeNew_idem st.CLUSTER_INSTANCES env.clusterInventory
  have hy : (load_state env (load_state env st)).YCSB_INSTANCES
      = (load_state env st).YCSB_INSTANCES := by
    simp only [load_state]
    exact mergeNew_idem st.YCSB_INSTANCES env.ycsbInventory
  exact ⟨hc, hy, by rw [hc], by rw [hy]⟩

/-- C2: `create_cluster` sets the seed address on the first invocation only.
From a state with no seed, a call with first instance `h` (whose private
address is a set, non-empty value) records that address as the seed; a
subsequent call — with any host list and any environment, i.e. even with a
different first instance — returns the state unchanged, seed included. -/
theorem create_cluster_seed_set_once (env env2 : Env) (h : String)
    (tl hosts2 : List String) (st : OrchState)
    (hseed : st.SEED_IP = "") (hip : env.privateIp h ≠ "") :
    create_cluster env (h :: tl) st =
      .ok ({ st with SEED_IP := env.privateIp h },
           (h :: tl).map ClusterEv.runCassandra) ∧
    create_cluster env2 hosts2 { st with SEED_IP := env.privateIp h } =
      .ok ({ st with SEED_IP := env.privateIp h },
           hosts2.map ClusterEv.runCassandra) := by
  constructor
  · simp [create_cluster, hseed]
  · simp [create_cluster, hip]

/-- Witness for C2 at a concrete input. -/
theorem create_cluster_seed_set_once_witness :
    create_cluster baseEnv ("i-a" :: ["i-b"]) initialState =
      .ok ({ initialState with SEED_IP := baseEnv.privateIp "i-a" },
           ("i-a" :: ["i-b"]).map ClusterEv.runCassandra) ∧
    create_cluster envScale ["i-c"] { initialState with SEED_IP := baseEnv.privateIp "i-a" } =
      .ok ({ initialState with SEED_IP := baseEnv.privateIp "i-a" },
           ["i-c"].map ClusterEv.runCassandra) :=
  create_cluster_seed_set_once baseEnv envScale "i-a" ["i-b"] ["i-c"] initialState rfl
    (by decide)

/-- C9: `create_instances` with the default `group=None` and `num ≥ 1` raises
a `TypeError` (the per-instance name needs `len(group)` before creation), and
no instance-creation request is ever submitted. -/
theorem create_instances_default_group_fails (env : Env) (num : Nat)
    (setup : String) (h : 1 ≤ num) :
    create_instances env num none setup =
      (.error "TypeError: object of type NoneType has no len", []) := by
  have hnz : num ≠ 0 := by omega
  simp [create_instances, hnz]

/-- Witness for C9 at a concrete input. -/
theorem create_instances_default_group_fails_witness :
    create_instances baseEnv 2 none "cassandra" =
      (.error "TypeError: object of type NoneType has no len", []) :=
  create_instances_default_group_fails baseEnv 2 "cassandra" (by decide)

/-! ## C1: scale_cluster and conflict errors -/

/-- C1 counterexample: with cluster admin `i-adm` and candidates
`[i-a, i-b, i-c]` where only `i-b` already runs the store, the operation
raises the conflict error for `i-b`, `i-a` was joined — but `i-c`'s join is
never attempted, refuting the claim that every other listed instance's join
attempt still takes place. -/
theorem scale_cluster_conflict_aborts_siblings_cex :
    (scale_cluster envScale stAdmin ["i-a", "i-b", "i-c"]).2 =
      .error "Detected already running instance on i-b" ∧
    ClusterEv.runCassandra "i-a" ∈ (scale_cluster envScale stAdmin ["i-a", "i-b", "i-c"]).1 ∧
    ClusterEv.runCassandra "i-c" ∉ (scale_cluster envScale stAdmin ["i-a", "i-b", "i-c"]).1 := by
  refine ⟨rfl, by decide, by decide⟩

theorem scale_loop_first_conflict (env : Env) (bad : String) (post : List String)
    (hbad : env.isRunning bad = true) :
    ∀ pre : List String, (∀ x ∈ pre, env.isRunning x = false) →
      scale_loop env (pre ++ bad :: post) =
        (pre.map ClusterEv.runCassandra ++ [ClusterEv.conflict bad],
         .error ("Detected already running instance on " ++ bad)) := by
  intro pre
  induction pre with
  | nil =>
      intro _
      simp [scale_loop, hbad]
  | cons p rest ih =>
      intro hp
      have hpf : env.isRunning p = false := hp p (List.mem_cons_self _ _)
      have hrest := ih (fun x hx => hp x (List.mem_cons_of_mem _ hx))
      simp only [List.cons_append, scale_loop, hpf, Bool.false_eq_true, if_false,
        List.append_eq, hrest, List.map_cons]

/-- C1 amended: when the candidate list is `pre ++ bad :: post` with no
instance of `pre` running the store and `bad` already running it,
`scale_cluster` raises the conflict error for `bad`; the instances of `pre`
were already joined (not rolled back), but the conflict aborts the whole
operation — no instance of `post` is attempted and the trailing ring-status
commands are skipped. -/
theorem scale_cluster_conflict_aborts_rest (env : Env) (st : OrchState)
    (admin bad : String) (rest pre post : List String)
    (hadmin : st.CLUSTER_INSTANCES = admin :: rest)
    (hpre : ∀ x ∈ pre, env.isRunning x = false)
    (hbad : env.isRunning bad = true) :
    scale_cluster env st (pre ++ bad :: post) =
      (ClusterEv.nodetool admin "status" ::
         (pre.map ClusterEv.runCassandra ++ [ClusterEv.conflict bad]),
       .error ("Detected already running instance on " ++ bad)) := by
  have hloop := scale_loop_first_conflict env bad post hbad pre hpre
  simp only [scale_cluster, hadmin, hloop]

/-- Witness for the amended C1 theorem at a concrete input. -/
theorem scale_cluster_conflict_aborts_rest_witness :
    scale_cluster envScale stAdmin (["i-a"] ++ "i-b" :: ["i-c"]) =
      (ClusterEv.nodetool "i-adm" "status" ::
         (["i-a"].map ClusterEv.runCassandra ++ [ClusterEv.conflict "i-b"]),
       .error ("Detected already running instance on " ++ "i-b")) :=
  scale_cluster_conflict_aborts_rest envScale stAdmin "i-adm" "i-b" [] ["i-a"] ["i-c"]
    rfl (by decide) rfl

/-! ## C3, C4, C5: the benchmark pipeline -/

/-- C3: when the keyspace already exists, `prepare_benchmark` issues no
schema-creation command — the existence probe short-circuits the schema step
— while the bulk data load from the first generator node still runs: the
commands issued are exactly the probe and the load. -/
theorem prepare_benchmark_short_circuits_schema (env : Env) (workload : String)
    (name : Option String) (description : String) (st : OrchState)
    (h1 : st.YCSB_INSTANCES ≠ []) (h2 : st.CLUSTER_INSTANCES ≠ [])
    (h3 : env.keyspaceExists = true) :
    prepare_benchmark env workload name description st =
      .ok ({ st with RUN_NAME := runNameOf env name, RUN_DESCRIPTION := description,
                     WORKLOAD := workload },
           [Cmd.describeKeyspaces, Cmd.ycsbLoad workload (cluster_ips env st)]) ∧
    ∀ c ∈ [Cmd.describeKeyspaces, Cmd.ycsbLoad workload (cluster_ips env st)],
      c.isCreateSchema = false := by
  constructor
  · simp only [prepare_benchmark, h1, h2, or_self, if_false, h3, if_true]
    rfl
  · intro c hc
    rcases List.mem_cons.mp hc with h | h
    · subst h; rfl
    · rcases List.mem_cons.mp h with h' | h'
      · subst h'; rfl
      · cases h'

/-- Witness for C3 at a concrete input. -/
theorem prepare_benchmark_short_circuits_schema_witness :
    prepare_benchmark { baseEnv with keyspaceExists := true } "workloads/workload_read"
        none "" { initialState with CLUSTER_INSTANCES := ["i-a"], YCSB_INSTANCES := ["y-0"] } =
      .ok ({ { initialState with CLUSTER_INSTANCES := ["i-a"], YCSB_INSTANCES := ["y-0"] } with
               RUN_NAME := runNameOf { baseEnv with keyspaceExists := true } none,
               RUN_DESCRIPTION := "",
               WORKLOAD := "workloads/workload_read" },
           [Cmd.describeKeyspaces,
            Cmd.ycsbLoad "workloads/workload_read"
              (cluster_ips { baseEnv with keyspaceExists := true }
                { initialState with CLUSTER_INSTANCES := ["i-a"], YCSB_INSTANCES := ["y-0"] })]) ∧
    ∀ c ∈ [Cmd.describeKeyspaces,
           Cmd.ycsbLoad "workloads/workload_read"
             (cluster_ips { baseEnv with keyspaceExists := true }
               { initialState with CLUSTER_INSTANCES := ["i-a"], YCSB_INSTANCES := ["y-0"] })],
      c.isCreateSchema = false :=
  prepare_benchmark_short_circuits_schema { baseEnv with keyspaceExists := true }
    "workloads/workload_read" none ""
    { initialState with CLUSTER_INSTANCES := ["i-a"], YCSB_INSTANCES := ["y-0"] }
    (by decide) (by decide) rfl

/-- C4: `start_benchmark` with `RUN_NAME` or `WORKLOAD` unset (as before any
`prepare_benchmark` in the process lifetime) fails with the precondition
error, issuing no command and touching no state; and after
`prepare_benchmark("workload_read", name="run1")` succeeds, the resulting
state has `RUN_NAME = "run1"` and `WORKLOAD = "workload_read"`. -/
theorem start_benchmark_requires_prepare (env env2 : Env) (st st0 : OrchState)
    (threads : Nat) (description : String)
    (hunset : st.RUN_NAME = "" ∨ st.WORKLOAD = "")
    (h1 : st0.YCSB_INSTANCES ≠ []) (h2 : st0.CLUSTER_INSTANCES ≠ []) :
    start_benchmark env st threads =
      ([], .error "Benchmark not setup properly! Use prepare_benchmark() first!") ∧
    ∀ st2 cmds,
      prepare_benchmark env2 "workload_read" (some "run1") description st0 = .ok (st2, cmds) →
        st2.RUN_NAME = "run1" ∧ st2.WORKLOAD = "workload_read" := by
  constructor
  · simp [start_benchmark, hunset]
  · intro st2 cmds hok
    simp only [prepare_benchmark, h1, h2, or_self, if_false] at hok
    have hst2 : st2 = { st0 with RUN_NAME := runNameOf env2 (some "run1"),
                                 RUN_DESCRIPTION := description,
                                 WORKLOAD := "workload_read" } := by
      cases hok
      rfl
    rw [hst2]
    exact ⟨rfl, rfl⟩

/-- Witness for C4 at a concrete input. -/
theorem start_benchmark_requires_prepare_witness :
    start_benchmark baseEnv initialState 1 =
      ([], .error "Benchmark not setup properly! Use prepare_benchmark() first!") ∧
    ∀ st2 cmds,
      prepare_benchmark baseEnv "workload_read" (some "run1") ""
          { initialState with CLUSTER_INSTANCES := ["i-a"], YCSB_INSTANCES := ["y-0"] } =
        .ok (st2, cmds) →
        st2.RUN_NAME = "run1" ∧ st2.WORKLOAD = "workload_read" :=
  start_benchmark_requires_prepare baseEnv baseEnv initialState
    { initialState with CLUSTER_INSTANCES := ["i-a"], YCSB_INSTANCES := ["y-0"] }
    1 "" (Or.inl rfl) (by decide) (by decide)

/-- C5: whenever `prepare_benchmark` creates the schema (keyspace not already
present), the creation command it issues has replication factor exactly 3 and
the fixed schema: key column `y_id` plus exactly the ten fields `field0` ..
`field9`. -/
theorem prepare_benchmark_creates_fixed_schema (env : Env) (workload : String)
    (name : Option String) (description : String) (st : OrchState)
    (h1 : st.YCSB_INSTANCES ≠ []) (h2 : st.CLUSTER_INSTANCES ≠ [])
    (h3 : env.keyspaceExists = false) :
    prepare_benchmark env workload name description st =
      .ok ({ st with RUN_NAME := runNameOf env name, RUN_DESCRIPTION := description,
                     WORKLOAD := workload },
           [Cmd.describeKeyspaces, Cmd.createSchema 3 usertableSchema,
            Cmd.ycsbLoad workload (cluster_ips env st)]) ∧
    usertableSchema.keyColumn = "y_id" ∧
    usertableSchema.fields = (List.range 10).map (fun i => "field" ++ toString i) ∧
    usertableSchema.fields.length = 10 := by
  refine ⟨?_, rfl, by decide, rfl⟩
  simp only [prepare_benchmark, h1, h2, or_self, if_false, h3, Bool.false_eq_true, if_false]
  rfl

/-- Witness for C5 at a concrete input. -/
theorem prepare_benchmark_creates_fixed_schema_witness :
    prepare_benchmark baseEnv "workloads/workload_read" none ""
        { initialState with CLUSTER_INSTANCES := ["i-a"], YCSB_INSTANCES := ["y-0"] } =
      .ok ({ { initialState with CLUSTER_INSTANCES := ["i-a"], YCSB_INSTANCES := ["y-0"] } with
               RUN_NAME := runNameOf baseEnv none,
               RUN_DESCRIPTION := "",
               WORKLOAD := "workloads/workload_read" },
           [Cmd.describeKeyspaces, Cmd.createSchema 3 usertableSchema,
            Cmd.ycsbLoad "workloads/workload_read"
              (cluster_ips baseEnv
                { initialState with CLUSTER_INSTANCES := ["i-a"], YCSB_INSTANCES := ["y-0"] })]) ∧
    usertableSchema.keyColumn = "y_id" ∧
    usertableSchema.fields = (List.range 10).map (fun i => "field" ++ toString i) ∧
    usertableSchema.fields.length = 10 :=
  prepare_benchmark_creates_fixed_schema baseEnv "workloads/workload_read" none ""
    { initialState with CLUSTER_INSTANCES := ["i-a"], YCSB_INSTANCES := ["y-0"] }
    (by decide) (by decide) rfl

/-! ## C6, C10: gather_results -/

theorem ycsbGather_ok_snd (env : Env) (ys : List String)
    (h : ∀ y ∈ ys, env.ycsbDownloadFails y = false) :
    ∀ i : Nat, (ycsbGather env i ys).2 = .ok () := by
  induction ys with
  | nil => intro i; rfl
  | cons y rest ih =>
      intro i
      have hy : env.ycsbDownloadFails y = false := h y (List.mem_cons_self _ _)
      simp only [ycsbGather, hy, Bool.false_eq_true, if_false]
      exact ih (fun x hx => h x (List.mem_cons_of_mem _ hx)) (i + 1)

theorem clusterGather_ok (env : Env) (cs : List String)
    (h : ∀ c ∈ cs, env.clusterConnectFails c = false) :
    ∀ i : Nat,
      (clusterGather env i cs).2 = .ok () ∧
      ∀ j : Nat, j < cs.length →
        (env.clusterFetchFails (cs.getD j "") = true →
           GatherEv.warning (cs.getD j "") ∈ (clusterGather env i cs).1) ∧
        (env.clusterFetchFails (cs.getD j "") = false →
           GatherEv.cassandraLog (i + j) ∈ (clusterGather env i cs).1) := by
  induction cs with
  | nil =>
      intro i
      exact ⟨rfl, fun j hj => absurd hj (by simp)⟩
  | cons c rest ih =>
      intro i
      have hc : env.clusterConnectFails c = false := h c (List.mem_cons_self _ _)
      have ihr := ih (fun x hx => h x (List.mem_cons_of_mem _ hx)) (i + 1)
      constructor
      · simp only [clusterGather, hc, Bool.false_eq_true, if_false]
        exact ihr.1
      · intro j hj
        match j with
        | 0 =>
            simp only [List.getD_cons_zero, Nat.add_zero]
            constructor
            · intro hf
              simp only [clusterGather, hc, Bool.false_eq_true, if_false, hf, if_true]
              exact List.mem_cons_self _ _
            · intro hf
              simp only [clusterGather, hc, Bool.false_eq_true, if_false, hf]
              exact List.mem_cons_self _ _
        | Nat.succ j' =>
            have hj' : j' < rest.length := by
              simpa [Nat.succ_lt_succ_iff] using hj
            have hmem := ihr.2 j' hj'
            simp only [List.getD_cons_succ]
            constructor
            · intro hf
              simp only [clusterGather, hc, Bool.false_eq_true, if_false]
              exact List.mem_cons_of_mem _ (hmem.1 hf)
            · intro hf
              have : i + (j' + 1) = i + 1 + j' := by omega
              rw [this]
              simp only [clusterGather, hc, Bool.false_eq_true, if_false]
              exact List.mem_cons_of_mem _ (hmem.2 hf)

/-- C6: when no generator download fails and every cluster node is reachable,
`gather_results` completes: the state and settings snapshot files are written
regardless of service-log fetch failures, a log is produced for every cluster
node whose fetch succeeds, and a warning is recorded for each node whose
fetch fails. -/
theorem gather_results_tolerates_fetch_failures (env : Env) (st : OrchState)
    (hy : ∀ y ∈ st.YCSB_INSTANCES, env.ycsbDownloadFails y = false)
    (hc : ∀ c ∈ st.CLUSTER_INSTANCES, env.clusterConnectFails c = false) :
    (gather_results env st).2 = .ok () ∧
    GatherEv.stateFile ∈ (gather_results env st).1 ∧
    GatherEv.settingsFile ∈ (gather_results env st).1 ∧
    ∀ j : Nat, j < st.CLUSTER_INSTANCES.length →
      (env.clusterFetchFails (st.CLUSTER_INSTANCES.getD j "") = true →
         GatherEv.warning (st.CLUSTER_INSTANCES.getD j "") ∈ (gather_results env st).1) ∧
      (env.clusterFetchFails (st.CLUSTER_INSTANCES.getD j "") = false →
         GatherEv.cassandraLog j ∈ (gather_results env st).1) := by
  have hys := ycsbGather_ok_snd env st.YCSB_INSTANCES hy 0
  obtain ⟨hcs, hmem⟩ := clusterGather_ok env st.CLUSTER_INSTANCES hc 0
  have hgr : gather_results env st =
      ((ycsbGather env 0 st.YCSB_INSTANCES).1 ++
         [GatherEv.stateFile, GatherEv.settingsFile,
          GatherEv.copyGeneralLog, GatherEv.copyActionLog] ++
         (clusterGather env 0 st.CLUSTER_INSTANCES).1,
       (clusterGather env 0 st.CLUSTER_INSTANCES).2) := by
    unfold gather_results
    simp only []
    rw [hys]
  refine ⟨?_, ?_, ?_, ?_⟩
  · rw [hgr]; exact hcs
  · rw [hgr]
    exact List.mem_append_left _ (List.mem_append_right _ (by simp))
  · rw [hgr]
    exact List.mem_append_left _ (List.mem_append_right _ (by simp))
  · intro j hj
    have h2 := hmem j hj
    constructor
    · intro hf
      rw [hgr]
      exact List.mem_append_right _ (h2.1 hf)
    · intro hf
      rw [hgr]
      have := h2.2 hf
      rw [Nat.zero_add] at this
      exact List.mem_append_right _ this

/-- State and environment for the C6 witness: three cluster nodes of which
exactly the one at index 1 fails its service-log fetch. -/
def envGatherW : Env := { baseEnv with clusterFetchFails := fun s => s == "c1" }

/-- Membership state for the C6 witness. -/
def stGatherW : OrchState :=
  { initialState with CLUSTER_INSTANCES := ["c0", "c1", "c2"], YCSB_INSTANCES := ["y0"],
                      RUN_NAME := "run1" }

/-- Witness for C6 at a concrete input. -/
theorem gather_results_tolerates_fetch_failures_witness :
    (gather_results envGatherW stGatherW).2 = .ok () ∧
    GatherEv.stateFile ∈ (gather_results envGatherW stGatherW).1 ∧
    GatherEv.settingsFile ∈ (gather_results envGatherW stGatherW).1 ∧
    ∀ j : Nat, j < stGatherW.CLUSTER_INSTANCES.length →
      (envGatherW.clusterFetchFails (stGatherW.CLUSTER_INSTANCES.getD j "") = true →
         GatherEv.warning (stGatherW.CLUSTER_INSTANCES.getD j "")
           ∈ (gather_results envGatherW stGatherW).1) ∧
      (envGatherW.clusterFetchFails (stGatherW.CLUSTER_INSTANCES.getD j "") = false →
         GatherEv.cassandraLog j ∈ (gather_results envGatherW stGatherW).1) :=
  gather_results_tolerates_fetch_failures envGatherW stGatherW (by decide) (by decide)

theorem ycsbGather_events_are_logs (env : Env) (ys : List String) :
    ∀ i : Nat, ∀ e ∈ (ycsbGather env i ys).1, e.isYcsbLog = true := by
  induction ys with
  | nil => intro i e he; cases he
  | cons y rest ih =>
      intro i e he
      by_cases hy : env.ycsbDownloadFails y = true
      · simp only [ycsbGather, hy, if_true] at he
        cases he
      · rw [Bool.not_eq_true] at hy
        simp only [ycsbGather, hy, Bool.false_eq_true, if_false] at he
        rcases List.mem_cons.mp he with h | h
        · subst h; rfl
        · exact ih (i + 1) e h

theorem ycsbGather_fails_snd (env : Env) (ys : List String)
    (h : ∃ y ∈ ys, env.ycsbDownloadFails y = true) :
    ∀ i : Nat, ∃ msg, (ycsbGather env i ys).2 = .error msg := by
  induction ys with
  | nil => rcases h with ⟨y, hy, _⟩; cases hy
  | cons y rest ih =>
      intro i
      by_cases hy : env.ycsbDownloadFails y = true
      · exact ⟨"download failed on " ++ y, by simp [ycsbGather, hy]⟩
      · rw [Bool.not_eq_true] at hy
        have hrest : ∃ x ∈ rest, env.ycsbDownloadFails x = true := by
          rcases h with ⟨x, hx, hfx⟩
          rcases List.mem_cons.mp hx with h' | h'
          · subst h'; rw [hy] at hfx; cases hfx
          · exact ⟨x, h', hfx⟩
        obtain ⟨msg, hmsg⟩ := ih hrest (i + 1)
        refine ⟨msg, ?_⟩
        simp only [ycsbGather, hy, Bool.false_eq_true, if_false]
        exact hmsg

/-- C10: a failure downloading the workload log from any generator node is
not recovered: `gather_results` aborts with an error, and the state and
settings snapshot files are never written (the events that took place are
only generator-log downloads). -/
theorem gather_results_aborts_on_generator_failure (env : Env) (st : OrchState)
    (h : ∃ y ∈ st.YCSB_INSTANCES, env.ycsbDownloadFails y = true) :
    (∃ msg, (gather_results env st).2 = .error msg) ∧
    GatherEv.stateFile ∉ (gather_results env st).1 ∧
    GatherEv.settingsFile ∉ (gather_results env st).1 := by
  obtain ⟨msg, hmsg⟩ := ycsbGather_fails_snd env st.YCSB_INSTANCES h 0
  have hgr : gather_results env st =
      ((ycsbGather env 0 st.YCSB_INSTANCES).1, .error msg) := by
    unfold gather_results
    simp only []
    rw [hmsg]
  refine ⟨⟨msg, by rw [hgr]⟩, ?_, ?_⟩
  · rw [hgr]
    intro hmem
    have := ycsbGather_events_are_logs env st.YCSB_INSTANCES 0 _ hmem
    cases this
  · rw [hgr]
    intro hmem
    have := ycsbGather_events_are_logs env st.YCSB_INSTANCES 0 _ hmem
    cases this

/-- Environment for the C10 witness: the only generator node's log download
fails. -/
def envGatherF : Env := { baseEnv with ycsbDownloadFails := fun s => s == "y0" }

/-- Witness for C10 at a concrete input. -/
theorem gather_results_aborts_on_generator_failure_witness :
    (∃ msg, (gather_results envGatherF stGatherW).2 = .error msg) ∧
    GatherEv.stateFile ∉ (gather_results envGatherF stGatherW).1 ∧
    GatherEv.settingsFile ∉ (gather_results envGatherF stGatherW).1 :=
  gather_results_aborts_on_generator_failure envGatherF stGatherW
    ⟨"y0", by decide, by decide⟩

/-! ## C8: the seed invariant -/

/-- The claimed state invariant: `SEED_IP` is non-empty whenever
`CLUSTER_INSTANCES` is non-empty. -/
def seedInvariant (st : OrchState) : Prop :=
  st.CLUSTER_INSTANCES ≠ [] → st.SEED_IP ≠ ""

instance (st : OrchState) : Decidable (seedInvariant st) := by
  unfold seedInvariant
  infer_instance

/-- C8 counterexample: from the fresh state (which satisfies the invariant),
`create_instances(1, group=CLUSTER_INSTANCES, setup="cassandra")` succeeds,
appending the created id to the cluster membership list, and the resulting
state — cluster list `["i-0"]`, seed still unset — violates the invariant:
the operation appends identifiers to the cluster membership list without
leaving the seed address set. -/
theorem create_instances_breaks_seed_invariant_cex :
    seedInvariant initialState ∧
    (create_instances baseEnv 1 (some initialState.CLUSTER_INSTANCES) "cassandra").1 =
      .ok ([{ id := "i-0", private_ip_address := "10.0.0.1", public_ip_address := "3.0.0.1" }],
           some ["i-0"]) ∧
    ¬ seedInvariant { initialState with CLUSTER_INSTANCES := ["i-0"] } := by
  refine ⟨by decide, rfl, ?_⟩
  intro hinv
  exact hinv (by decide) rfl

/-- C8 amended: the invariant is not preserved by `create_instances` (which
appends to the cluster membership list but never touches the seed); it is
(re-)established by `load_state`, which — whenever the merged cluster list is
non-empty and the cloud reports non-empty private addresses — sets `SEED_IP`
to the private address of the first cluster instance. -/
theorem load_state_restores_seed_invariant (env : Env) (st : OrchState)
    (h : ∀ id, env.privateIp id ≠ "") :
    seedInvariant (load_state env st) ∧
    ((load_state env st).CLUSTER_INSTANCES ≠ [] →
      (load_state env st).SEED_IP =
        env.privateIp ((load_state env st).CLUSTER_INSTANCES.headD "")) := by
  constructor
  · intro hne
    simp only [load_state] at hne ⊢
    cases hm : mergeNew st.CLUSTER_INSTANCES env.clusterInventory with
    | nil => rw [hm] at hne; exact absurd rfl hne
    | cons c rest => exact h c
  · intro hne
    simp only [load_state] at hne ⊢
    cases hm : mergeNew st.CLUSTER_INSTANCES env.clusterInventory with
    | nil => rw [hm] at hne; exact absurd rfl hne
    | cons c rest => rfl

/-- Witness for the amended C8 theorem at a concrete input. -/
theorem load_state_restores_seed_invariant_witness :
    seedInvariant (load_state { baseEnv with clusterInventory := ["i-0"] } initialState) ∧
    ((load_state { baseEnv with clusterInventory := ["i-0"] } initialState).CLUSTER_INSTANCES ≠ [] →
      (load_state { baseEnv with clusterInventory := ["i-0"] } initialState).SEED_IP =
        ({ baseEnv with clusterInventory := ["i-0"] } : Env).privateIp
          ((load_state { baseEnv with clusterInventory := ["i-0"] } initialState).CLUSTER_INSTANCES.headD "")) :=
  load_state_restores_seed_invariant { baseEnv with clusterInventory := ["i-0"] }
    initialState (fun _ => (by decide : ("10.0.0.1" : String) ≠ ""))
